import Mathlib

/-
Verification development for the Chimera source-hygiene tooling.

Shallow embedding of:
  - src/tier2_auto_refactor.py            (structural splitter)
  - src/Assets/ProjectChimera/CI/run_quality_gates.py
  - src/Assets/ProjectChimera/CI/enforce_resources_load_ban.py
  - src/Assets/ProjectChimera/CI/enforce_debug_log_ban.py
  - src/Assets/ProjectChimera/CI/enforce_file_size_limits.py

Text is modelled as `List Char` (ASCII fragment actually used by these
scripts); a file is a `List PyLine` of newline-terminated physical lines
with the trailing newline removed, and a file system is an association
list from path to line list.  Python's `re` patterns used by the scripts
are straight-line (literals, character runs, optional groups), so each is
embedded as a hand-written decidable matcher with the same backtracking
semantics, documented at its definition.
-/

abbrev PyLine := List Char

/-- Python whitespace class for `str.strip` / `\s` (ASCII fragment). -/
def isPySpace (c : Char) : Bool :=
  c == ' ' || c == '\t' || c == '\n' || c == '\r' || c == '\x0b' || c == '\x0c'

/-- Python `\w` word character class (ASCII fragment). -/
def isWordChar (c : Char) : Bool :=
  c.isAlpha || c.isDigit || c == '_'

/-- Drop trailing characters satisfying `p`. -/
def dropTrailingWhile (p : Char → Bool) (l : List Char) : List Char :=
  (l.reverse.dropWhile p).reverse

/-- Python `str.strip()` with no argument. -/
def pyStrip (l : List Char) : List Char :=
  dropTrailingWhile isPySpace (l.dropWhile isPySpace)

/-- Python `str.rstrip()` with no argument. -/
def pyRstrip (l : List Char) : List Char :=
  dropTrailingWhile isPySpace l

/-- Python `str.lower()` on the ASCII letters (written as an explicit
character table so that facts such as "no character lowercases to an
uppercase letter" are provable by case analysis). -/
def pyToLower (c : Char) : Char :=
  match c with
  | 'A' => 'a' | 'B' => 'b' | 'C' => 'c' | 'D' => 'd' | 'E' => 'e'
  | 'F' => 'f' | 'G' => 'g' | 'H' => 'h' | 'I' => 'i' | 'J' => 'j'
  | 'K' => 'k' | 'L' => 'l' | 'M' => 'm' | 'N' => 'n' | 'O' => 'o'
  | 'P' => 'p' | 'Q' => 'q' | 'R' => 'r' | 'S' => 's' | 'T' => 't'
  | 'U' => 'u' | 'V' => 'v' | 'W' => 'w' | 'X' => 'x' | 'Y' => 'y'
  | 'Z' => 'z'
  | other => other

/-- Python `str.lower()` over a character list. -/
def pyLower (l : List Char) : List Char :=
  l.map pyToLower

/-- `startsWithL p s` : `p` is a leading segment of `s`. -/
def startsWithL : List Char → List Char → Bool
  | [], _ => true
  | _ :: _, [] => false
  | a :: p, b :: s => a == b && startsWithL p s

/-- Python `pat in s` substring containment (also `re.search` of a pure
literal pattern). -/
def isSubstr (pat : List Char) : List Char → Bool
  | [] => startsWithL pat []
  | b :: s => startsWithL pat (b :: s) || isSubstr pat s

/-- `re.search` driver: succeeds if the anchored matcher `f` succeeds at
some start position of the string (every suffix, the empty one included). -/
def searchAt (f : List Char → Bool) : List Char → Bool
  | [] => f []
  | c :: cs => f (c :: cs) || searchAt f cs

/-- Python `s.split(pat)[0]`: the text before the first occurrence of
`pat`, or all of `s` when `pat` does not occur. -/
def takeUntilSub (pat : List Char) : List Char → List Char
  | [] => []
  | c :: cs => if startsWithL pat (c :: cs) then [] else c :: takeUntilSub pat cs

/-- `line.count` for a single character (the scripts only count braces). -/
def charCount (c : Char) (l : List Char) : Nat :=
  l.count c

/-- Per-line brace delta `line.count('{') - line.count('}')` from
`tier2_auto_refactor.py` (braces written as \x7b / \x7d escapes). -/
def braceDelta (l : List Char) : Int :=
  (charCount '\x7b' l : Int) - (charCount '\x7d' l : Int)

/-- Running brace balance of a line block, as accumulated by the Python
loops `brace_count += line.count('{') - line.count('}')`. -/
def linesBalance (ls : List PyLine) : Int :=
  ls.foldl (fun a l => a + braceDelta l) 0

/-- Anchored matcher for the regex tail `\s+\w+`: at least one whitespace
character, then (after the maximal whitespace run) a word character.
Backtracking inside `\s+` cannot help because `\s` and `\w` are disjoint. -/
def wordGapMatch (r : List Char) : Bool :=
  match r with
  | [] => false
  | c :: _ =>
    isPySpace c &&
      (match r.dropWhile isPySpace with
       | [] => false
       | d :: _ => isWordChar d)

/-- Anchored matcher for `\s*(class|struct|enum)\s+\w+`: the keyword must
follow the maximal leading whitespace run, since keywords start with a
non-space character. -/
def kwTailMatch (s : List Char) : Bool :=
  ["class", "struct", "enum"].any fun kw =>
    startsWithL kw.toList (s.dropWhile isPySpace) &&
      wordGapMatch ((s.dropWhile isPySpace).drop kw.toList.length)

/-- `re.match(r'(public|private|internal|protected)?\s*(class|struct|enum)\s+\w+', s)`
from tier2_auto_refactor.py (anchored at the start of `s`).  The optional
modifier group is tried with each alternative and with the empty string,
exactly as the backtracking engine does. -/
def isStructHeader (s : List Char) : Bool :=
  (["public", "private", "internal", "protected"].any fun m =>
      startsWithL m.toList s && kwTailMatch (s.drop m.toList.length))
  || kwTailMatch s

/-- Loop body of `find_data_structure_start`: scan indices `i`, `i+1`, ...
(`fuel` counts the remaining iterations) and return the first index whose
stripped line matches the header regex, subject to the `i > 50` guard of
the source (a matching line at `i <= 50` is passed over, not returned). -/
def find_ds_go (lines : List PyLine) : Nat → Nat → Option Nat
  | _, 0 => none
  | i, fuel + 1 =>
    if isStructHeader (pyStrip (lines.getD i [])) = true ∧ 50 < i then some i
    else find_ds_go lines (i + 1) fuel

/-- `find_data_structure_start(lines, min_line)`: iterate
`for i in range(min_line, len(lines))`; the caller in `refactor_file`
passes the default `min_line = 400`. -/
def find_data_structure_start (lines : List PyLine) (minLine : Nat) : Option Nat :=
  find_ds_go lines minLine (lines.length - minLine)

/-- Scan state loop of `extract_data_structures`, one constructor argument
per Python local: the remaining lines, `in_structure`, `current_structure`
and `brace_count`.  A header line seen outside a structure starts capture
and `continue`s (so a brace-balanced one-line declaration is not closed on
its own line); inside a structure every line is appended and the structure
is emitted when the running balance returns to zero; all other lines are
dropped. -/
def extractGo : List PyLine → Bool → List PyLine → Int → List (List PyLine)
  | [], _, _, _ => []
  | l :: rest, inS, cur, dd =>
    if isStructHeader (pyStrip l) = true ∧ inS = false then
      extractGo rest true [l] (braceDelta l)
    else if inS = true then
      (if dd + braceDelta l = 0 then
         (cur ++ [l]) :: extractGo rest false [] 0
       else
         extractGo rest true (cur ++ [l]) (dd + braceDelta l))
    else
      extractGo rest false cur dd

/-- `extract_data_structures(lines, start_line)`: the Python loop runs over
`lines[start_line:]` with `in_structure = False`, `current_structure = []`,
`brace_count = 0`; an unfinished trailing structure is discarded.  Each
returned structure is kept as its list of captured lines (the Python code
joins them into one string). -/
def extract_data_structures (lines : List PyLine) (startLine : Nat) : List (List PyLine) :=
  extractGo (lines.drop startLine) false [] 0

/-- Concatenation of the captured declarations, line-wise (the Python side
holds each declaration as the string join of exactly these lines). -/
def linesJoin (xs : List (List PyLine)) : List PyLine :=
  xs.foldr (fun a b => a ++ b) []

/-- Character stream of one captured declaration. -/
def charsJoin (s : List PyLine) : List Char :=
  s.foldr (fun a b => a ++ b) []

/-
Path arithmetic used by `create_data_structures_file`:
`Path(p).name`, `Path(p).stem`, `Path(p).parent`.  Paths are plain
character lists with '/' separators (as produced by the hard-coded file
table of the script).
-/

/-- `Path(p).name`: the part of the path after the last '/'. -/
def fileNameOf (p : List Char) : List Char :=
  (p.reverse.takeWhile (fun c => c != '/')).reverse

/-- The path up to and including its last '/' (empty when the path has no
directory part); `p = dirSlashOf p ++ fileNameOf p`. -/
def dirSlashOf (p : List Char) : List Char :=
  (p.reverse.dropWhile (fun c => c != '/')).reverse

/-- Span of a reversed file name at the first '.': returns
`(characters before the dot, rest beginning at the dot)`. -/
def dotSpanRev : List Char → List Char × List Char
  | [] => ([], [])
  | c :: cs =>
    if c = '.' then ([], c :: cs)
    else
      let p := dotSpanRev cs
      (c :: p.1, p.2)

/-- `Path(name).stem`: the file name without its final suffix.  A name
with no dot, a dot only at position 0, or nothing after its last dot has
no suffix and is its own stem. -/
def stemOf (n : List Char) : List Char :=
  let p := dotSpanRev n.reverse
  match p.2 with
  | [] => n
  | [_] => n
  | _ :: rest => if p.1.isEmpty then n else rest.reverse

/-- The fixed name suffix appended by `create_data_structures_file`. -/
def dsSuffix : List Char := "DataStructures.cs".toList

/-- The fixed backup-path suffix `f"{filepath}.backup"`. -/
def bakSuffix : List Char := ".backup".toList

/-- `str(dir_name / f"{base_name}DataStructures.cs")` for the original
path: same directory, stem of the original name, fixed suffix. -/
def dsFilePath (p : List Char) : List Char :=
  dirSlashOf p ++ (stemOf (fileNameOf p) ++ dsSuffix)

/-- Python file content `''.join(f.readlines())`: every physical line with
its terminating newline (the tool's inputs are newline-terminated). -/
def contentOf (ls : List PyLine) : List Char :=
  ls.foldr (fun l acc => l ++ '\n' :: acc) []

/-- Anchored matcher for the regex tail `\s+([\w\.]+)` of
`extract_namespace`: at least one whitespace character, then the maximal
nonempty run of word-or-dot characters (the greedy capture group). -/
def nsTail (s : List Char) : Option (List Char) :=
  match s with
  | [] => none
  | c :: _ =>
    if isPySpace c then
      match (s.dropWhile isPySpace).takeWhile (fun d => isWordChar d || d == '.') with
      | [] => none
      | w => some w
    else none

/-- `re.search(r'namespace\s+([\w\.]+)', content)` scanning for the
leftmost match; on failure the source falls back to "ProjectChimera". -/
def extract_namespace_go : List Char → List Char
  | [] => "ProjectChimera".toList
  | c :: rest =>
    if startsWithL "namespace".toList (c :: rest) then
      match nsTail ((c :: rest).drop 9) with
      | some w => w
      | none => extract_namespace_go rest
    else extract_namespace_go rest

/-- `extract_namespace(content)` of tier2_auto_refactor.py. -/
def extract_namespace (content : List Char) : List Char :=
  extract_namespace_go content

/-- `extract_using_statements(lines)`: collect `using ...` lines (but not
`using (`) right-stripped; stop at the first non-empty line that neither
is a comment nor starts with `using`. -/
def extract_using_statements : List PyLine → List PyLine
  | [] => []
  | l :: rest =>
    let s := pyStrip l
    if startsWithL "using ".toList s = true ∧ startsWithL "using (".toList s = false then
      pyRstrip l :: extract_using_statements rest
    else if s ≠ [] ∧ startsWithL "//".toList s = false ∧ startsWithL "using".toList s = false then
      []
    else
      extract_using_statements rest

/-- Lines written by `create_data_structures_file`: two header comment
lines and a blank (the `\n\n`), the using statements, a blank line plus
the namespace header and opening brace, each declaration's captured lines
followed by the blank line produced by writing `structure + '\n'`, and
the closing brace. -/
def ds_file_content (fp : List Char) (ls : List PyLine)
    (structures : List (List PyLine)) : List PyLine :=
  ["// REFACTORED: Data Structures".toList,
   "// Extracted from ".toList ++ fileNameOf fp
     ++ " for better separation of concerns".toList,
   []]
  ++ extract_using_statements ls
  ++ [[], "namespace ".toList ++ extract_namespace (contentOf ls), "\x7b".toList]
  ++ structures.foldr (fun s acc => s ++ [[]] ++ acc) []
  ++ ["\x7d".toList]

/-- The synthetic closing line `"    }\n"` appended by
`create_streamlined_coordinator`. -/
def closerLine : PyLine := "    \x7d".toList

/-- The synthetic closing lines of the coordinator: `end_line` falls back
to the whole file when `data_structure_start` is falsy (Python truthiness:
index 0 also counts as falsy); the residual open-brace count of the
retained lines is appended as that many `"    }"` lines when positive. -/
def coordinator_closers (lines : List PyLine) (start : Nat) : List PyLine :=
  let e := if start ≠ 0 then start else lines.length
  let bal := linesBalance (lines.take e)
  if 0 < bal then List.replicate bal.toNat closerLine else []

/-- Content written over the original file by
`create_streamlined_coordinator`: `lines[0 : min(end_line, len(lines))]`
followed by the synthetic closers. -/
def coordinator_content (lines : List PyLine) (start : Nat) : List PyLine :=
  let e := if start ≠ 0 then start else lines.length
  lines.take (min e lines.length) ++ coordinator_closers lines start

/-- File system model: association list path ↦ line list, newest entry
first. -/
abbrev FS := List (List Char × List PyLine)

/-- `os.path.exists` / reading a file. -/
def fsLookup (fs : FS) (p : List Char) : Option (List PyLine) :=
  match fs with
  | [] => none
  | (q, c) :: rest => if q = p then some c else fsLookup rest p

/-- Writing (creating or overwriting) a file. -/
def fsWrite (fs : FS) (p : List Char) (c : List PyLine) : FS :=
  (p, c) :: fs

/-- Outcome of `refactor_file`, one constructor per distinct exit path of
the source (each prints its own message). -/
inductive RefactorOutcome
  | notFound
  | tooSmall
  | alreadySplit
  | noStructureFound
  | noStructuresExtracted
  | success
deriving DecidableEq

/-- The boolean the Python function returns. -/
def RefactorOutcome.isSuccess : RefactorOutcome → Bool
  | .success => true
  | _ => false

/-- Result of one `refactor_file` call: the outcome, the file writes in
the order the source performs them, and the final file system. -/
structure RefactorResult where
  outcome : RefactorOutcome
  writes : List (List Char × List PyLine)
  fs : FS

/-- `refactor_file(filepath)` of tier2_auto_refactor.py over the file
system model.  Guards in source order: existence, `line_count < 500`,
existing backup, no header found from line 400, nothing extracted.  On
the success path the declarations file is written first, then
`create_streamlined_coordinator` copies the file's current content to the
backup path (`shutil.copy2`) and finally overwrites the original. -/
def refactor_file (fp : List Char) (fs : FS) : RefactorResult :=
  match fsLookup fs fp with
  | none => ⟨.notFound, [], fs⟩
  | some ls =>
    if ls.length < 500 then ⟨.tooSmall, [], fs⟩
    else if (fsLookup fs (fp ++ bakSuffix)).isSome then ⟨.alreadySplit, [], fs⟩
    else
      match find_data_structure_start ls 400 with
      | none => ⟨.noStructureFound, [], fs⟩
      | some start =>
        let structures := extract_data_structures ls start
        if structures.isEmpty then ⟨.noStructuresExtracted, [], fs⟩
        else
          let dsC := ds_file_content fp ls structures
          let fs1 := fsWrite fs (dsFilePath fp) dsC
          let bak := (fsLookup fs1 fp).getD []
          let fs2 := fsWrite fs1 (fp ++ bakSuffix) bak
          let coordC := coordinator_content ls start
          let fs3 := fsWrite fs2 fp coordC
          ⟨.success,
           [(dsFilePath fp, dsC), (fp ++ bakSuffix, bak), (fp, coordC)],
           fs3⟩

/-
enforce_file_size_limits.py
-/

/-- Severity tiers of `calculate_severity`. -/
inductive Severity
  | low
  | medium
  | high
  | critical
deriving DecidableEq

/-- Ordinal rank of a severity tier (LOW < MEDIUM < HIGH < CRITICAL). -/
def sevRank : Severity → Nat
  | .low => 0
  | .medium => 1
  | .high => 2
  | .critical => 3

/-- `excess_ratio = (line_count - limit) / limit`.  Python computes this
with IEEE doubles; for the integer operands the script can produce
(budgets 500/600, line counts far below 2^53) the double comparisons
against 1.0, 0.5 and 0.25 agree exactly with the rational ones, so the
embedding uses exact rationals. -/
def excess_ratio (lineCount limit : Nat) : ℚ :=
  ((lineCount : ℚ) - (limit : ℚ)) / (limit : ℚ)

/-- `calculate_severity(line_count, limit)`; the source's literals 1.0,
0.5, 0.25 are the exact rationals 1, 1/2, 1/4. -/
def calculate_severity (lineCount limit : Nat) : Severity :=
  if excess_ratio lineCount limit ≥ 1 then .critical
  else if excess_ratio lineCount limit ≥ 1 / 2 then .high
  else if excess_ratio lineCount limit ≥ 1 / 4 then .medium
  else .low

/-- Subsystem classification of `determine_system_type`. -/
inductive SystemType
  | core
  | systems
  | data
  | ui
  | testing
  | editor
  | unknown
deriving DecidableEq

/-- `determine_system_type(path_parts)`: the path is lowercased and tested
against directory markers in source order; first match wins. -/
def determine_system_type (path : List Char) : SystemType :=
  let s := pyLower path
  if isSubstr "/core/".toList s then .core
  else if isSubstr "/systems/".toList s then .systems
  else if isSubstr "/data/".toList s then .data
  else if isSubstr "/ui/".toList s then .ui
  else if isSubstr "/testing/".toList s || isSubstr "/tests/".toList s then .testing
  else if isSubstr "/editor/".toList s then .editor
  else .unknown

/-- `system_limits.get(system_type, 500)`: the per-subsystem budget table
with default 500 for the unknown subsystem. -/
def system_limit : SystemType → Nat
  | .core => 500
  | .systems => 500
  | .data => 500
  | .ui => 500
  | .testing => 600
  | .editor => 500
  | .unknown => 500

/-- The violation record appended by `check_file_size_violations`. -/
structure SizeViolation where
  file : List Char
  lineTotal : Nat
  limit : Nat
  excess : Nat
  system : SystemType
  severity : Severity
deriving DecidableEq

/-- Per-file body of `check_file_size_violations` (after the backup and
exemption skips): a violation is produced exactly when the line count
exceeds the subsystem budget. -/
def size_violation_for (path : List Char) (ls : List PyLine) : Option SizeViolation :=
  let n := ls.length
  let sys := determine_system_type path
  let lim := system_limit sys
  if n > lim then
    some ⟨path, n, lim, n - lim, sys, calculate_severity n lim⟩
  else none

/-- `severity_counts['CRITICAL']` of the report in `main`. -/
def countCritical (vs : List SizeViolation) : Nat :=
  (vs.filter (fun v => v.severity == Severity.critical)).length

/-- Exit code computed at the end of `main` in enforce_file_size_limits.py:
block (exit 1) iff any CRITICAL violation exists; otherwise exit 0, both
above the 110-violation warning ceiling and below it. -/
def size_gate_exit (vs : List SizeViolation) : Nat :=
  if 0 < countCritical vs then 1
  else if 110 < vs.length then 0
  else 0

/-
Shared regex building blocks for the checker scripts.
-/

/-- Anchored matcher for the regex tail `\s*\(`: the first character after
the maximal whitespace run must be '(' (backtracking inside `\s*` cannot
help because '(' is not whitespace). -/
def wsThenParen (s : List Char) : Bool :=
  match s.dropWhile isPySpace with
  | c :: _ => c == '('
  | [] => false

/-- `re.search` of `lit` + `\s*\(` : some occurrence of the literal
followed by optional whitespace and an opening parenthesis. -/
def searchLitWsParen (lit : List Char) (s : List Char) : Bool :=
  searchAt (fun t => startsWithL lit t && wsThenParen (t.drop lit.length)) s

/-- Anchored matcher for the regex tail `[^>]+>\s*\(`: a nonempty run of
non-'>' characters must end at the first '>' (the run cannot contain one),
then optional whitespace and '('. -/
def angleThenWsParen (s : List Char) : Bool :=
  match s with
  | [] => false
  | c :: _ =>
    (c != '>') &&
      (match s.dropWhile (fun x => x != '>') with
       | '>' :: r => wsThenParen r
       | _ => false)

/-- `re.search` of `lit` + `[^>]+>\s*\(` (the literal ends with '<'). -/
def searchLitAngleWsParen (lit : List Char) (s : List Char) : Bool :=
  searchAt (fun t => startsWithL lit t && angleThenWsParen (t.drop lit.length)) s

/-- Anchored matcher for the regex tail `[^)]+\)\.GetProperty` after
`typeof(`: a nonempty run of non-')' characters ending at the first ')',
which must be followed by the literal `.GetProperty`. -/
def parenRunGetProp (s : List Char) : Bool :=
  match s with
  | [] => false
  | c :: _ =>
    (c != ')') &&
      (match s.dropWhile (fun x => x != ')') with
       | ')' :: r => startsWithL ".GetProperty".toList r
       | _ => false)

/-
enforce_debug_log_ban.py — per-line logic of check_debug_log_violations.
-/

/-- The four `violation_patterns` of enforce_debug_log_ban.py, in list
order. -/
inductive DebugPat
  | dLog
  | dWarn
  | dError
  | uLog
deriving DecidableEq

/-- The literal head of each pattern (each pattern is the literal followed
by `\s*\(`). -/
def debugPatKey : DebugPat → List Char
  | .dLog => "Debug.Log".toList
  | .dWarn => "Debug.LogWarning".toList
  | .dError => "Debug.LogError".toList
  | .uLog => "UnityEngine.Debug.Log".toList

/-- `re.search(pattern, line)` for one debug pattern, applied to the raw
(unstripped) line exactly as the source does. -/
def debugMatches (p : DebugPat) (line : List Char) : Bool :=
  searchLitWsParen (debugPatKey p) line

/-- The ordered `violation_patterns` list. -/
def debugPatterns : List DebugPat := [.dLog, .dWarn, .dError, .uLog]

/-- The per-line comment/string-literal skip of
check_debug_log_violations (tests on the stripped line). -/
def debugSuppressed (line : List Char) : Bool :=
  let lc := pyStrip line
  startsWithL "//".toList lc || startsWithL "*".toList lc ||
    isSubstr "\"Debug.Log".toList lc || isSubstr "@\"Debug\\.Log".toList lc

/-- Violations recorded for a single line by check_debug_log_violations:
the inner `for pattern in violation_patterns` loop appends one record per
matching pattern and does not stop at the first match. -/
def debug_line_violations (line : List Char) : List DebugPat :=
  if debugSuppressed line then []
  else debugPatterns.foldl (fun acc p => if debugMatches p line then acc ++ [p] else acc) []

/-
enforce_resources_load_ban.py
-/

/-- The `violation_patterns` of enforce_resources_load_ban.py, in list
order. -/
inductive ResPat
  | loadGen
  | load
  | loadAllGen
  | loadAll
deriving DecidableEq

/-- `re.search(pattern, line)` for one Resources.Load pattern. -/
def resMatches : ResPat → List Char → Bool
  | .loadGen, l => searchLitAngleWsParen "Resources.Load<".toList l
  | .load, l => searchLitWsParen "Resources.Load".toList l
  | .loadAllGen, l => searchLitAngleWsParen "Resources.LoadAll<".toList l
  | .loadAll, l => searchLitWsParen "Resources.LoadAll".toList l

/-- The ordered `violation_patterns` list. -/
def resPatterns : List ResPat := [.loadGen, .load, .loadAllGen, .loadAll]

/-- The `fallback indicators` list of `_is_legitimate_fallback`, in source
order; each is tested as a raw substring of the lowercased context line,
and the fourth entry keeps its uppercase 'M' exactly as in the source. -/
def fallbackIndicators : List (List Char) :=
  ["fallback to resources".toList,
   "addressablesassetmanager not available".toList,
   "fallback mechanism".toList,
   "if (assetManager == null)".toList,
   "catch (system.exception".toList,
   "backup loading method".toList]

/-- One context line test of `_is_legitimate_fallback`:
`lines[i].strip().lower()` contains some indicator. -/
def fallbackHit (lines : List PyLine) (i : Nat) : Bool :=
  fallbackIndicators.any fun ind => isSubstr ind (pyLower (pyStrip (lines.getD i [])))

/-- `_is_legitimate_fallback(lines, line_idx, line_content)` (the third
parameter is unused by the source body): scans
`range(max(0, line_idx - 5), min(len(lines), line_idx + 5))` — the
half-open Python range covers 5 lines before through 4 lines after the
candidate. -/
def _is_legitimate_fallback (lines : List PyLine) (lineIdx : Nat) : Bool :=
  (List.range' (lineIdx - 5) (min lines.length (lineIdx + 5) - (lineIdx - 5))).any
    fun i => fallbackHit lines i

/-- Modelled from the spec (section 4.2), for comparison with the source
function: a symmetric inclusive window of 5 lines before and 5 lines
after the candidate, same indicator test. -/
def fallback_window_per_spec (lines : List PyLine) (lineIdx : Nat) : Bool :=
  (List.range' (lineIdx - 5) (min lines.length (lineIdx + 5 + 1) - (lineIdx - 5))).any
    fun i => fallbackHit lines i

/-- The `_is_legitimate_fallback` body with the mixed-case indicator
`'if (assetManager == null)'` removed from the list — the comparison
function of claim C10. -/
def fallbackIndicatorsPruned : List (List Char) :=
  ["fallback to resources".toList,
   "addressablesassetmanager not available".toList,
   "fallback mechanism".toList,
   "catch (system.exception".toList,
   "backup loading method".toList]

/-- `fallbackHit` over the pruned indicator list. -/
def fallbackHitPruned (lines : List PyLine) (i : Nat) : Bool :=
  fallbackIndicatorsPruned.any fun ind => isSubstr ind (pyLower (pyStrip (lines.getD i [])))

/-- `_is_legitimate_fallback` over the pruned indicator list. -/
def fallback_pruned (lines : List PyLine) (lineIdx : Nat) : Bool :=
  (List.range' (lineIdx - 5) (min lines.length (lineIdx + 5) - (lineIdx - 5))).any
    fun i => fallbackHitPruned lines i

/-- The per-line comment/string/fallback-pattern skip of
check_resources_load_violations (tests on the stripped line). -/
def resSuppressed (line : List Char) : Bool :=
  let lc := pyStrip line
  startsWithL "//".toList lc || startsWithL "*".toList lc ||
    isSubstr "\"Resources.Load".toList lc || startsWithL "[".toList lc ||
    isSubstr "Fallback to Resources".toList lc ||
    isSubstr "AddressablesAssetManager not available".toList lc

/-- Violations recorded for line index `idx` (0-based; the source passes
`line_num - 1`) by check_resources_load_violations: the comment/string
skips, then the fallback-context skip, then one appended record per
matching pattern of the ordered list (the loop has no break). -/
def resources_line_violations (lines : List PyLine) (idx : Nat) : List ResPat :=
  let line := lines.getD idx []
  if resSuppressed line then []
  else if _is_legitimate_fallback lines idx then []
  else resPatterns.foldl (fun acc p => if resMatches p line then acc ++ [p] else acc) []

/-
run_quality_gates.py — per-line logic of check_anti_patterns.
-/

/-- The thirteen `FORBIDDEN_PATTERNS` of run_quality_gates.py, in list
order. -/
inductive ForbiddenPat
  | findOne
  | findMany
  | goFind
  | resLoad
  | dbgLog
  | dbgWarn
  | dbgError
  | getField
  | getProp
  | getMethod
  | typeofGetProp
  | activator
  | asmLoad
deriving DecidableEq

/-- `re.search(pattern, text)` for one forbidden pattern.  All but one are
escaped literals; `typeof\([^)]+\)\.GetProperty` uses the nonempty
non-')' run matcher. -/
def forbiddenMatches : ForbiddenPat → List Char → Bool
  | .findOne, l => isSubstr "FindObjectOfType<".toList l
  | .findMany, l => isSubstr "FindObjectsOfType<".toList l
  | .goFind, l => isSubstr "GameObject.Find(".toList l
  | .resLoad, l => isSubstr "Resources.Load".toList l
  | .dbgLog, l => isSubstr "Debug.Log(".toList l
  | .dbgWarn, l => isSubstr "Debug.LogWarning(".toList l
  | .dbgError, l => isSubstr "Debug.LogError(".toList l
  | .getField, l => isSubstr ".GetField(".toList l
  | .getProp, l => isSubstr ".GetProperty(".toList l
  | .getMethod, l => isSubstr ".GetMethod(".toList l
  | .typeofGetProp, l =>
    searchAt (fun t => startsWithL "typeof(".toList t && parenRunGetProp (t.drop 7)) l
  | .activator, l => isSubstr "Activator.CreateInstance".toList l
  | .asmLoad, l => isSubstr "Assembly.Load".toList l

/-- The ordered `FORBIDDEN_PATTERNS` list. -/
def FORBIDDEN_PATTERNS : List ForbiddenPat :=
  [.findOne, .findMany, .goFind, .resLoad, .dbgLog, .dbgWarn, .dbgError,
   .getField, .getProp, .getMethod, .typeofGetProp, .activator, .asmLoad]

/-- The code text of a line in check_anti_patterns: the stripped line, and
when an inline `//` is present only the re-stripped portion before its
first occurrence. -/
def codeTextOf (line : List Char) : List Char :=
  let lc := pyStrip line
  if isSubstr "//".toList lc then pyStrip (takeUntilSub "//".toList lc) else lc

/-- `any(skip in str(file_path) for skip in keys)`. -/
def pathHasAny (path : List Char) (keys : List (List Char)) : Bool :=
  keys.any fun k => isSubstr k path

/-- The suppression chain of check_anti_patterns in source order: each
`continue` guard of the Python loop body becomes one disjunct (a chain of
early `continue`s is equivalent to the disjunction of its conditions).
String-literal, UnityEngine.Object, ChimeraLogger and content-dependent
tests run against the comment-stripped code text, exactly as the source
reassigns `line_content` before them. -/
def antiPatternSuppressed (path line : List Char) : Bool :=
  let s0 := pyStrip line
  let lc := codeTextOf line
  (startsWithL "//".toList s0 || startsWithL "///".toList s0 || startsWithL "*".toList s0)
  || (isSubstr "\"FindObjectOfType".toList lc || isSubstr "\"Resources.Load".toList lc
      || isSubstr "\"Debug.Log".toList lc)
  || isSubstr "UnityEngine.Object.FindObject".toList lc
  || (isSubstr "ChimeraLogger.Log".toList lc || isSubstr "UnityEngine.Debug.Log".toList lc)
  || pathHasAny path ["QualityGateRunner.cs".toList, "QualityGates.cs".toList,
      "run_quality_gates.py".toList]
  || pathHasAny path ["AntiPatternMigrationTool".toList, "DebugLogMigrationTool".toList,
      "BatchMigration".toList, "MigrationScript".toList]
  || (pathHasAny path ["ServiceContainer".toList, "ServiceAdvancedFeatures".toList,
        "TypedServiceRegistration".toList, "/Core/".toList]
      && (isSubstr ".GetMethod(".toList lc || isSubstr "Activator.CreateInstance".toList lc))
  || ((pathHasAny path ["AudioLoadingService".toList, "DataManager".toList,
        "/Interfaces/".toList]
      || isSubstr "// Legacy".toList lc || isSubstr "// MIGRATION".toList lc)
      && isSubstr "Resources.Load".toList lc)
  || pathHasAny path ["ChimeraLogger.cs".toList, "ChimeraScriptableObject.cs".toList,
      "SharedLogger.cs".toList, "/Shared/".toList]
  || (pathHasAny path ["UIProgressBarManager".toList, "UINotificationManager".toList]
      && isSubstr "GameObject.Find".toList lc)

/-- Violations recorded for one line by check_anti_patterns of
run_quality_gates.py: the suppression chain, then one appended record per
matching pattern of the ordered list (the loop has no break).  Unlike the
other checkers, the patterns here are tested against the comment-stripped
code text, not the raw line. -/
def check_anti_patterns_line (path line : List Char) : List ForbiddenPat :=
  if antiPatternSuppressed path line then []
  else
    FORBIDDEN_PATTERNS.foldl
      (fun acc p => if forbiddenMatches p (codeTextOf line) then acc ++ [p] else acc) []

/-
enforce_findobjectoftype_ban.py
-/

/-- The five `violation_patterns` of enforce_findobjectoftype_ban.py, in
list order.  Each is a literal ending in '<' followed by `[^>]+>\s*\(`. -/
inductive FindPat
  | plain
  | plural
  | goType
  | ueoType
  | objType
deriving DecidableEq

/-- `re.search(pattern, line)` for one FindObjectOfType pattern. -/
def findMatches : FindPat → List Char → Bool
  | .plain, l => searchLitAngleWsParen "FindObjectOfType<".toList l
  | .plural, l => searchLitAngleWsParen "FindObjectsOfType<".toList l
  | .goType, l => searchLitAngleWsParen "GameObject.FindObjectOfType<".toList l
  | .ueoType, l => searchLitAngleWsParen "UnityEngine.Object.FindObjectOfType<".toList l
  | .objType, l => searchLitAngleWsParen "Object.FindObjectOfType<".toList l

/-- The ordered `violation_patterns` list. -/
def findPatterns : List FindPat := [.plain, .plural, .goType, .ueoType, .objType]

/-- The per-line comment/string/attribute skip of
check_findobjectoftype_violations (tests on the stripped line). -/
def findSuppressed (line : List Char) : Bool :=
  let lc := pyStrip line
  startsWithL "//".toList lc || startsWithL "*".toList lc ||
    isSubstr "\"FindObjectOfType".toList lc || startsWithL "[".toList lc

/-- Violations recorded for a single line by
check_findobjectoftype_violations: the skips, then one appended record
per matching pattern of the ordered list (the loop has no break); the
patterns are tested against the raw line, with no comment splitting. -/
def findobjectoftype_line_violations (line : List Char) : List FindPat :=
  if findSuppressed line then []
  else findPatterns.foldl (fun acc p => if findMatches p line then acc ++ [p] else acc) []

/-
Concrete inputs used by the counterexamples and witnesses below.
-/

/-- A padding comment line. -/
def padLine : PyLine := "// pad".toList

/-- Path of the concrete oversized file. -/
def exPath : List Char := "Assets/Foo/Big.cs".toList

/-- A concrete 502-line C# file: namespace header and opening brace,
492 comment lines, a struct (lines 494-496, 0-based), a blank line, an
enum (lines 498-500) and the namespace's closing brace (line 501). -/
def exLines : List PyLine :=
  ["namespace Foo".toList, "\x7b".toList]
  ++ List.replicate 492 padLine
  ++ ["    public struct A".toList, "    \x7b".toList, "    \x7d".toList,
      [],
      "    public enum B".toList, "    \x7b".toList, "    \x7d".toList,
      "\x7d".toList]

/-- File system holding only the oversized file. -/
def exFS : FS := [(exPath, exLines)]

/-- A small file whose only extractable structure starts at line 1. -/
def exSmallLines : List PyLine :=
  ["// header".toList, "struct S".toList, "\x7b".toList, "\x7d".toList]

/-- Path of the already-backed-up small file of the C5 counterexample. -/
def exPathC5 : List Char := "Assets/Foo/Small.cs".toList

/-- File system of the C5 counterexample: the target file has 400 lines
and its backup path already exists. -/
def exFSC5 : FS :=
  [(exPathC5, List.replicate 400 padLine),
   (exPathC5 ++ bakSuffix, ["old".toList])]

/-- Path of the already-backed-up large file of the C5 witness. -/
def exPathC5w : List Char := "Assets/Foo/Large.cs".toList

/-- File system of the C5 witness: the target file has 500 lines and its
backup path already exists. -/
def exFSC5w : FS :=
  [(exPathC5w, List.replicate 500 padLine),
   (exPathC5w ++ bakSuffix, ["old".toList])]

/-- The C2 counterexample line: matches both the `Debug\.Log\s*\(` and the
`UnityEngine\.Debug\.Log\s*\(` pattern. -/
def exDebugLine : List Char := "UnityEngine.Debug.Log(msg);".toList

/-- The C3 counterexample file: a Resources.Load call on line 0 and a
fallback marker comment on line 5, exactly 5 lines after the candidate. -/
def exLinesC3 : List PyLine :=
  ["var x = Resources.Load<Texture>(path);".toList,
   "a".toList, "b".toList, "c".toList, "d".toList,
   "// fallback to resources".toList]

/-- The C3 witness file: a fallback marker comment directly above a
Resources.Load call. -/
def exLinesC3w : List PyLine :=
  ["// fallback to resources path".toList,
   "var x = Resources.Load<Texture>(path);".toList]

/-- The C8 counterexample file: the banned token occurs only in the
trailing comment portion of line 0. -/
def exLinesC8 : List PyLine :=
  ["var t = GetIt(); // old: Resources.Load<Texture>(q)".toList]

/-- The C8 witness line: same shape, fed to check_anti_patterns. -/
def exLineC8w : List Char := "var t = GetIt(); // old: Resources.Load<Texture>(q)".toList

/-- The findobjectoftype half of the C8 counterexample: the banned token
occurs only in the trailing comment portion. -/
def exLineC8f : List Char :=
  "var c = GetCam(); // was: FindObjectOfType<Camera>(true)".toList

/-- A neutral path for the C8 witness. -/
def exPathC8w : List Char := "Assets/ProjectChimera/Systems/Foo.cs".toList

/-- A CRITICAL size violation as built by check_file_size_violations for
a 1001-line file with budget 500. -/
def exCritViolation : SizeViolation :=
  ⟨"Assets/ProjectChimera/Core/Huge.cs".toList, 1001, 500, 501,
   SystemType.core, calculate_severity 1001 500⟩

/-- A LOW size violation for a 501-line file with budget 500. -/
def exLowViolation : SizeViolation :=
  ⟨"Assets/ProjectChimera/Core/Mild.cs".toList, 501, 500, 1,
   SystemType.core, calculate_severity 501 500⟩

/-- Small input for the C1 witness: one retained line, then a one-header
struct whose opening brace sits on the header line. -/
def exLinesW : List PyLine :=
  ["alpha".toList, "struct S \x7b".toList, "\x7d".toList]

/-- The single declaration extracted from `exSmallLines` at start 0. -/
def exStructW : List PyLine :=
  ["struct S".toList, "\x7b".toList, "\x7d".toList]

/-
Helper lemmas (not claim theorems).
-/

/-- The Python append loop `for p in patterns: if f(p): out.append(p)`
written as a fold equals `filter`. -/
theorem foldl_if_append_eq_filter {α : Type} (f : α → Bool) (ps : List α) (acc : List α) :
    ps.foldl (fun a p => if f p then a ++ [p] else a) acc = acc ++ ps.filter f := by
  induction ps generalizing acc with
  | nil => simp
  | cons p ps ih =>
    by_cases h : f p
    · simp [List.foldl_cons, h, ih, List.filter_cons]
    · simp [List.foldl_cons, h, ih, List.filter_cons]

/-- `List.any` only depends on the predicate's values on the list. -/
theorem any_eq_of_pointwise {α : Type} (l : List α) (p q : α → Bool)
    (h : ∀ a ∈ l, p a = q a) : l.any p = l.any q := by
  induction l with
  | nil => rfl
  | cons a t ih =>
    simp only [List.any_cons]
    rw [h a (by simp), ih (fun b hb => h b (by simp [hb]))]

/-- Characters of a matched leading segment occur in the string. -/
theorem startsWithL_mem {p s : List Char} (h : startsWithL p s = true) :
    ∀ c ∈ p, c ∈ s := by
  induction p generalizing s with
  | nil => intro c hc; cases hc
  | cons a p ih =>
    cases s with
    | nil => simp [startsWithL] at h
    | cons b t =>
      simp only [startsWithL, Bool.and_eq_true, beq_iff_eq] at h
      intro c hc
      rcases List.mem_cons.mp hc with rfl | hc
      · rw [h.1]; exact List.mem_cons_self b t
      · exact List.mem_cons_of_mem _ (ih h.2 c hc)

/-- Characters of a matched substring occur in the string. -/
theorem isSubstr_mem {p s : List Char} (h : isSubstr p s = true) :
    ∀ c ∈ p, c ∈ s := by
  induction s with
  | nil =>
    cases p with
    | nil => intro c hc; cases hc
    | cons a q => simp [isSubstr, startsWithL] at h
  | cons b t ih =>
    simp only [isSubstr, Bool.or_eq_true] at h
    rcases h with h | h
    · exact startsWithL_mem h
    · intro c hc; exact List.mem_cons_of_mem _ (ih h c hc)

/-- No character lowercases to the uppercase letter 'M'. -/
theorem pyToLower_ne_upper_M (c : Char) : pyToLower c ≠ 'M' := by
  unfold pyToLower
  split <;> simp_all

/-- A lowercased string contains no 'M'. -/
theorem not_mem_pyLower_M (x : List Char) : 'M' ∉ pyLower x := by
  intro h
  rcases List.mem_map.mp h with ⟨c, _, hc⟩
  exact pyToLower_ne_upper_M c hc

/-- The mixed-case fallback indicator can never be a substring of a
lowercased context line. -/
theorem isSubstr_mixed_indicator_lower (x : List Char) :
    isSubstr "if (assetManager == null)".toList (pyLower x) = false := by
  rw [Bool.eq_false_iff]
  intro h
  exact not_mem_pyLower_M x (isSubstr_mem h 'M' (by decide))

/-- The captured lines of all completed structures form a sublist of the
current structure (when inside one) followed by the remaining input. -/
theorem extractGo_join_sublist :
    ∀ (ls : List PyLine) (inS : Bool) (cur : List PyLine) (dd : Int),
      List.Sublist (linesJoin (extractGo ls inS cur dd))
        ((if inS = true then cur else []) ++ ls) := by
  intro ls
  induction ls with
  | nil => intro inS cur dd; simp [extractGo, linesJoin]
  | cons l rest ih =>
    intro inS cur dd
    cases inS with
    | false =>
      rw [show extractGo (l :: rest) false cur dd
          = if isStructHeader (pyStrip l) = true then extractGo rest true [l] (braceDelta l)
            else extractGo rest false cur dd from by simp [extractGo]]
      rw [if_neg (by simp : ¬(false = true)), List.nil_append]
      by_cases hh : isStructHeader (pyStrip l) = true
      · rw [if_pos hh]
        have h := ih true [l] (braceDelta l)
        rw [if_pos rfl] at h
        simpa using h
      · rw [if_neg hh]
        have h := ih false cur dd
        rw [if_neg (by simp : ¬(false = true)), List.nil_append] at h
        exact List.Sublist.cons l h
    | true =>
      rw [show extractGo (l :: rest) true cur dd
          = if dd + braceDelta l = 0 then (cur ++ [l]) :: extractGo rest false [] 0
            else extractGo rest true (cur ++ [l]) (dd + braceDelta l) from by simp [extractGo]]
      rw [if_pos (rfl : true = true)]
      by_cases hz : dd + braceDelta l = 0
      · rw [if_pos hz]
        have h := ih false [] 0
        rw [if_neg (by simp : ¬(false = true)), List.nil_append] at h
        have hstep : List.Sublist
            ((cur ++ [l]) ++ linesJoin (extractGo rest false [] 0))
            ((cur ++ [l]) ++ rest) := List.Sublist.append_left h _
        have hjoin : linesJoin ((cur ++ [l]) :: extractGo rest false [] 0)
            = (cur ++ [l]) ++ linesJoin (extractGo rest false [] 0) := rfl
        rw [hjoin]
        simpa [List.append_assoc] using hstep
      · rw [if_neg hz]
        have h := ih true (cur ++ [l]) (dd + braceDelta l)
        rw [if_pos rfl] at h
        simpa [List.append_assoc] using h

/-- The concatenation of the extracted declarations is a sublist of the
input past the start line. -/
theorem extract_join_sublist (lines : List PyLine) (start : Nat) :
    List.Sublist (linesJoin (extract_data_structures lines start)) (lines.drop start) := by
  have h := extractGo_join_sublist (lines.drop start) false [] 0
  simpa [extract_data_structures] using h

/-- Shifting the accumulator of the brace-balance fold. -/
theorem linesBalance_foldl_init (t : List PyLine) :
    ∀ init : Int, t.foldl (fun a l => a + braceDelta l) init = init + linesBalance t := by
  induction t with
  | nil => intro init; simp [linesBalance]
  | cons x xs ih =>
    intro init
    rw [List.foldl_cons, ih]
    have h2 : linesBalance (x :: xs) = 0 + braceDelta x + linesBalance xs := by
      rw [linesBalance, List.foldl_cons, ih]
    rw [h2]
    ring

/-- The balance of a block decomposes line by line. -/
theorem linesBalance_cons (l : PyLine) (t : List PyLine) :
    linesBalance (l :: t) = braceDelta l + linesBalance t := by
  rw [linesBalance, List.foldl_cons, linesBalance_foldl_init]
  ring

/-- Appending one line adds its brace delta to the running balance. -/
theorem linesBalance_append_single (cur : List PyLine) (l : PyLine) :
    linesBalance (cur ++ [l]) = linesBalance cur + braceDelta l := by
  simp [linesBalance, List.foldl_append]

/-- Loop invariant of `extract_data_structures`: if the running
`brace_count` equals the balance of the current buffer, every emitted
structure has balance zero. -/
theorem extractGo_balanced :
    ∀ (ls : List PyLine) (inS : Bool) (cur : List PyLine) (dd : Int),
      linesBalance cur = dd →
      ∀ s ∈ extractGo ls inS cur dd, linesBalance s = 0 := by
  intro ls
  induction ls with
  | nil => intro inS cur dd _ s hs; simp only [extractGo] at hs; cases hs
  | cons l rest ih =>
    intro inS cur dd hcur s hs
    simp only [extractGo] at hs
    split_ifs at hs with h1 h2 h3
    · exact ih true [l] (braceDelta l) (by simp [linesBalance]) s hs
    · rcases List.mem_cons.mp hs with rfl | hs
      · rw [linesBalance_append_single, hcur]; exact h3
      · exact ih false [] 0 (by simp [linesBalance]) s hs
    · exact ih true (cur ++ [l]) (dd + braceDelta l)
        (by rw [linesBalance_append_single, hcur]) s hs
    · exact ih false cur dd hcur s hs

/-- The running balance of a block equals opening minus closing braces of
its character stream. -/
theorem linesBalance_eq_counts (s : List PyLine) :
    linesBalance s
      = (charCount '\x7b' (charsJoin s) : Int) - (charCount '\x7d' (charsJoin s) : Int) := by
  induction s with
  | nil => simp [linesBalance, charsJoin, charCount]
  | cons l rest ih =>
    rw [linesBalance_cons, ih, show charsJoin (l :: rest) = l ++ charsJoin rest from rfl]
    simp only [charCount, List.count_append]
    unfold braceDelta charCount
    push_cast
    ring

/-- A path splits into its directory part (with trailing '/') and its
file name. -/
theorem dirSlash_append_fileName (p : List Char) :
    dirSlashOf p ++ fileNameOf p = p := by
  unfold dirSlashOf fileNameOf
  rw [← List.reverse_append, List.takeWhile_append_dropWhile, List.reverse_reverse]

/-- `dotSpanRev` splits its input. -/
theorem dotSpanRev_append (l : List Char) :
    (dotSpanRev l).1 ++ (dotSpanRev l).2 = l := by
  induction l with
  | nil => rfl
  | cons c cs ih =>
    by_cases h : c = '.'
    · simp [dotSpanRev, h]
    · simp [dotSpanRev, h, ih]

/-- The second component of `dotSpanRev` starts with a dot when nonempty. -/
theorem dotSpanRev_snd_head (l : List Char) :
    ∀ c t, (dotSpanRev l).2 = c :: t → c = '.' := by
  induction l with
  | nil => intro c t h; cases h
  | cons a cs ih =>
    intro c t h
    by_cases ha : a = '.'
    · simp [dotSpanRev, ha] at h
      rw [← h.1]
    · simp [dotSpanRev, ha] at h
      exact ih c t h

/-- A file name never equals its own stem with the fixed
"DataStructures.cs" suffix appended. -/
theorem stem_append_suffix_ne (n : List Char) : stemOf n ++ dsSuffix ≠ n := by
  have hlen : dsSuffix.length = 17 := rfl
  unfold stemOf
  rcases hsp : (dotSpanRev n.reverse).2 with _ | ⟨c, rest⟩
  · simp only [hsp]
    intro h
    have h2 := congrArg List.length h
    rw [List.length_append, hlen] at h2
    omega
  · rcases rest with _ | ⟨r1, r2⟩
    · simp only [hsp]
      intro h
      have h2 := congrArg List.length h
      rw [List.length_append, hlen] at h2
      omega
    · simp only [hsp]
      by_cases he : (dotSpanRev n.reverse).1.isEmpty
      · rw [if_pos he]
        intro h
        have h2 := congrArg List.length h
        rw [List.length_append, hlen] at h2
        omega
      · rw [if_neg he]
        intro h
        have hc : c = '.' := dotSpanRev_snd_head n.reverse c (r1 :: r2) hsp
        have hx := dotSpanRev_append n.reverse
        rw [hsp] at hx
        set A := (dotSpanRev n.reverse).1 with hA
        have hn : n = (r1 :: r2).reverse ++ c :: A.reverse := by
          have h3 := congrArg List.reverse hx
          rw [List.reverse_reverse] at h3
          rw [← h3]
          simp
        have h4 : (r1 :: r2).reverse ++ dsSuffix
            = (r1 :: r2).reverse ++ (c :: A.reverse) := by
          rw [← hn]
          exact h
        have h5 := List.append_cancel_left h4
        rw [hc] at h5
        have h6 : 'D' = '.' := by
          have h7 := congrArg List.headI h5
          simp [dsSuffix] at h7
        cases h6

/-- The declarations-file path is always distinct from the original path. -/
theorem dsFilePath_ne (fp : List Char) : dsFilePath fp ≠ fp := by
  intro h
  have h2 : dirSlashOf fp ++ (stemOf (fileNameOf fp) ++ dsSuffix)
      = dirSlashOf fp ++ fileNameOf fp := by
    unfold dsFilePath at h
    rw [dirSlash_append_fileName]
    exact h
  exact stem_append_suffix_ne (fileNameOf fp) (List.append_cancel_left h2)

/-- Looking up a different path skips a freshly written entry. -/
theorem fsLookup_write_ne (fs : FS) (p q : List Char) (c : List PyLine) (h : p ≠ q) :
    fsLookup (fsWrite fs p c) q = fsLookup fs q := by
  simp [fsWrite, fsLookup, h]

set_option maxRecDepth 4096 in
/-- Case analysis of `refactor_file`: every run either skips (no writes,
file system unchanged, return value false) or succeeds with exactly the
three writes — declarations file, then the backup holding the original
content verbatim, then the coordinator over the original path. -/
theorem refactor_file_cases (fp : List Char) (fs : FS) :
    ((refactor_file fp fs).writes = [] ∧ (refactor_file fp fs).fs = fs ∧
      (refactor_file fp fs).outcome.isSuccess = false) ∨
    (∃ ls start,
      fsLookup fs fp = some ls ∧
      find_data_structure_start ls 400 = some start ∧
      (refactor_file fp fs).outcome = RefactorOutcome.success ∧
      (refactor_file fp fs).writes =
        [(dsFilePath fp, ds_file_content fp ls (extract_data_structures ls start)),
         (fp ++ bakSuffix, ls),
         (fp, coordinator_content ls start)]) := by
  cases hf : fsLookup fs fp with
  | none =>
    exact Or.inl (by simp [refactor_file, hf, RefactorOutcome.isSuccess])
  | some ls =>
    by_cases hlen : ls.length < 500
    · exact Or.inl (by simp [refactor_file, hf, hlen, RefactorOutcome.isSuccess])
    · by_cases hbak : (fsLookup fs (fp ++ bakSuffix)).isSome
      · exact Or.inl (by simp [refactor_file, hf, hlen, hbak, RefactorOutcome.isSuccess])
      · cases hfind : find_data_structure_start ls 400 with
        | none =>
          exact Or.inl (by simp [refactor_file, hf, hlen, hbak, hfind,
            RefactorOutcome.isSuccess])
        | some start =>
          by_cases hemp : (extract_data_structures ls start).isEmpty
          · exact Or.inl (by simp [refactor_file, hf, hlen, hbak, hfind, hemp,
              RefactorOutcome.isSuccess])
          · have hbakread :
                fsLookup (fsWrite fs (dsFilePath fp)
                  (ds_file_content fp ls (extract_data_structures ls start))) fp
                  = some ls := by
              rw [fsLookup_write_ne fs (dsFilePath fp) fp _ (dsFilePath_ne fp)]
              exact hf
            refine Or.inr ⟨ls, start, rfl, hfind, ?_, ?_⟩
            · simp [refactor_file, hf, hlen, hbak, hfind, hemp]
            · simp [refactor_file, hf, hlen, hbak, hfind, hemp, hbakread]

/-
Claim theorems.
-/

/-- C1 (amended): for every line list and nonzero split point, the
coordinator content is exactly the retained lines `take start` followed
by the synthetic closing lines, and the retained lines followed by the
extracted declarations' exact lines form a sublist of the original file
(lines between or after the captured declarations are dropped), so the
retained-plus-extracted line count is at most — not necessarily equal
to — the original line count. -/
theorem split_retains_prefix_and_is_sublist (lines : List PyLine) (start : Nat)
    (h0 : start ≠ 0) :
    coordinator_content lines start = lines.take start ++ coordinator_closers lines start ∧
    List.Sublist (lines.take start ++ linesJoin (extract_data_structures lines start)) lines ∧
    (lines.take start).length + (linesJoin (extract_data_structures lines start)).length
      ≤ lines.length := by
  have hsub : List.Sublist
      (lines.take start ++ linesJoin (extract_data_structures lines start)) lines := by
    have h := List.Sublist.append_left (extract_join_sublist lines start) (lines.take start)
    rw [List.take_append_drop] at h
    exact h
  refine ⟨?_, hsub, ?_⟩
  · show lines.take (min (if start ≠ 0 then start else lines.length) lines.length)
        ++ coordinator_closers lines start
        = lines.take start ++ coordinator_closers lines start
    rw [if_pos h0]
    congr 1
    rcases Nat.le_total start lines.length with hle | hle
    · rw [Nat.min_eq_left hle]
    · rw [Nat.min_eq_right hle, List.take_length, List.take_of_length_le hle]
  · have h := List.Sublist.length_le hsub
    rw [List.length_append] at h
    exact h

/-- C1 witness: the amended claim at a concrete three-line file split at
line 1. -/
theorem split_retains_prefix_and_is_sublist_witness :
    coordinator_content exLinesW 1 = exLinesW.take 1 ++ coordinator_closers exLinesW 1 ∧
    List.Sublist (exLinesW.take 1 ++ linesJoin (extract_data_structures exLinesW 1)) exLinesW ∧
    (exLinesW.take 1).length + (linesJoin (extract_data_structures exLinesW 1)).length
      ≤ exLinesW.length :=
  split_retains_prefix_and_is_sublist exLinesW 1 (by decide)

set_option maxRecDepth 8192 in
/-- C1 counterexample: `refactor_file` splits the concrete 502-line file
`exLines` successfully, yet the retained prefix plus the extracted
declarations reproduce neither the original line count (500 of 502 lines:
the blank line between the two declarations and the namespace's closing
brace are dropped) nor the original token stream. -/
theorem split_conservation_counterexample :
    (refactor_file exPath exFS).outcome = RefactorOutcome.success ∧
    find_data_structure_start exLines 400 = some 494 ∧
    exLines.length = 502 ∧
    (exLines.take 494).length + (linesJoin (extract_data_structures exLines 494)).length = 500 ∧
    exLines.take 494 ++ linesJoin (extract_data_structures exLines 494) ≠ exLines := by
  decide

/-- C4: every declaration emitted by `extract_data_structures` has final
brace balance zero — over all of its captured lines the number of opening
braces equals the number of closing braces. -/
theorem extracted_declaration_brace_balanced (lines : List PyLine) (start : Nat)
    (s : List PyLine) (hs : s ∈ extract_data_structures lines start) :
    charCount '\x7b' (charsJoin s) = charCount '\x7d' (charsJoin s) := by
  have h0 : linesBalance s = 0 :=
    extractGo_balanced (lines.drop start) false [] 0 (by simp [linesBalance]) s hs
  rw [linesBalance_eq_counts] at h0
  omega

/-- C4 witness: the theorem applied to the declaration extracted from
`exSmallLines` at start 0. -/
theorem extracted_declaration_brace_balanced_witness :
    charCount '\x7b' (charsJoin exStructW) = charCount '\x7d' (charsJoin exStructW) :=
  extracted_declaration_brace_balanced exSmallLines 0 exStructW (by decide)

/-- C5 (amended): whenever the backup path `<file>.backup` exists,
`refactor_file` skips — returns false, writes nothing, and leaves the
file system unchanged — and the skip is reported as "already split"
exactly when the file also exists with at least 500 lines; a missing
file is reported as not found and an under-500-line file as already
small, because those guards run before the backup guard. -/
theorem backup_guard_skips_without_rewrite (fp : List Char) (fs : FS)
    (hb : (fsLookup fs (fp ++ bakSuffix)).isSome = true) :
    (refactor_file fp fs).outcome.isSuccess = false ∧
    (refactor_file fp fs).writes = [] ∧
    (refactor_file fp fs).fs = fs ∧
    ((refactor_file fp fs).outcome = RefactorOutcome.alreadySplit ↔
      ∃ ls, fsLookup fs fp = some ls ∧ 500 ≤ ls.length) ∧
    (fsLookup fs fp = none →
      (refactor_file fp fs).outcome = RefactorOutcome.notFound) ∧
    (∀ ls, fsLookup fs fp = some ls → ls.length < 500 →
      (refactor_file fp fs).outcome = RefactorOutcome.tooSmall) := by
  cases hf : fsLookup fs fp with
  | none =>
    have ho : (refactor_file fp fs).outcome = RefactorOutcome.notFound := by
      simp [refactor_file, hf]
    refine ⟨?_, ?_, ?_, ?_, ?_, ?_⟩
    · simp [refactor_file, hf, RefactorOutcome.isSuccess]
    · simp [refactor_file, hf]
    · simp [refactor_file, hf]
    · rw [ho]
      simp
    · intro _
      exact ho
    · intro ls2 hls2 _
      exact absurd hls2 (by simp)
  | some ls =>
    by_cases hlen : ls.length < 500
    · have ho : (refactor_file fp fs).outcome = RefactorOutcome.tooSmall := by
        simp [refactor_file, hf, hlen]
      refine ⟨?_, ?_, ?_, ?_, ?_, ?_⟩
      · simp [refactor_file, hf, hlen, RefactorOutcome.isSuccess]
      · simp [refactor_file, hf, hlen]
      · simp [refactor_file, hf, hlen]
      · rw [ho]
        constructor
        · intro h
          exact absurd h (by decide)
        · rintro ⟨ls2, hls2, h500⟩
          obtain rfl : ls = ls2 := by injection hls2
          exact absurd h500 (by omega)
      · intro h
        exact absurd h (by simp)
      · intro ls2 hls2 _
        exact ho
    · have ho : (refactor_file fp fs).outcome = RefactorOutcome.alreadySplit := by
        simp [refactor_file, hf, hlen, hb]
      refine ⟨?_, ?_, ?_, ?_, ?_, ?_⟩
      · simp [refactor_file, hf, hlen, hb, RefactorOutcome.isSuccess]
      · simp [refactor_file, hf, hlen, hb]
      · simp [refactor_file, hf, hlen, hb]
      · rw [ho]
        constructor
        · intro _
          exact ⟨ls, rfl, by omega⟩
        · intro _
          rfl
      · intro h
        exact absurd h (by simp)
      · intro ls2 hls2 hlt
        obtain rfl : ls = ls2 := by injection hls2
        exact absurd hlt hlen

set_option maxRecDepth 4096 in
/-- C5 witness: a 500-line file with an existing backup is skipped with
the "already split" outcome, nothing written. -/
theorem backup_guard_skips_without_rewrite_witness :
    (refactor_file exPathC5w exFSC5w).outcome.isSuccess = false ∧
    (refactor_file exPathC5w exFSC5w).writes = [] ∧
    (refactor_file exPathC5w exFSC5w).fs = exFSC5w ∧
    (refactor_file exPathC5w exFSC5w).outcome = RefactorOutcome.alreadySplit := by
  have h := backup_guard_skips_without_rewrite exPathC5w exFSC5w (by decide)
  exact ⟨h.1, h.2.1, h.2.2.1,
    h.2.2.2.1.mpr ⟨List.replicate 500 padLine, by decide, by decide⟩⟩

set_option maxRecDepth 4096 in
/-- C5 counterexample: a 400-line file whose backup already exists is
skipped as "too small", not as "already split" — the under-500 guard
fires before the backup guard. -/
theorem backup_guard_reason_counterexample :
    (fsLookup exFSC5 (exPathC5 ++ bakSuffix)).isSome = true ∧
    (refactor_file exPathC5 exFSC5).outcome = RefactorOutcome.tooSmall ∧
    (refactor_file exPathC5 exFSC5).outcome ≠ RefactorOutcome.alreadySplit := by
  decide

/-- C6: every skip outcome of `refactor_file` performs no write at all
(in particular the original file is untouched and the file system is
unchanged); on the success path the writes are, in order, the
declarations file, a verbatim copy of the full original content at the
backup path, and only then the coordinator over the original path — the
backup write precedes the overwrite of the original. -/
theorem backup_written_before_overwrite (fp : List Char) (fs : FS) :
    ((refactor_file fp fs).outcome.isSuccess = false →
      (refactor_file fp fs).writes = [] ∧ (refactor_file fp fs).fs = fs) ∧
    ((refactor_file fp fs).outcome.isSuccess = true →
      ∃ ls dsC coordC,
        fsLookup fs fp = some ls ∧
        (refactor_file fp fs).writes =
          [(dsFilePath fp, dsC), (fp ++ bakSuffix, ls), (fp, coordC)]) := by
  rcases refactor_file_cases fp fs with ⟨hw, hfs, hf⟩ | ⟨ls, start, hlk, hfind, hsucc, hw⟩
  · refine ⟨fun _ => ⟨hw, hfs⟩, fun ht => ?_⟩
    rw [hf] at ht
    simp at ht
  · refine ⟨fun hfail => ?_, fun _ => ⟨ls, _, _, hlk, hw⟩⟩
    rw [hsucc] at hfail
    simp [RefactorOutcome.isSuccess] at hfail

set_option maxRecDepth 8192 in
/-- C6 witness: the successful split of the concrete 502-line file writes
the declarations file, then the verbatim backup, then the coordinator. -/
theorem backup_written_before_overwrite_witness :
    ∃ ls dsC coordC,
      fsLookup exFS exPath = some ls ∧
      (refactor_file exPath exFS).writes =
        [(dsFilePath exPath, dsC), (exPath ++ bakSuffix, ls), (exPath, coordC)] :=
  (backup_written_before_overwrite exPath exFS).2 (by decide)

/-- C2 (amended): the per-line pattern loop of every checker — the
debug-log, resources-load and findobjectoftype scripts and
check_anti_patterns of run_quality_gates.py — records one violation per
matching pattern of its ordered pattern list, in list order; it does not
stop at the first match, so a line matching several patterns yields one
violation for each of them, and zero violations arise only from
suppression or from no pattern matching. -/
theorem checker_reports_each_matching_pattern :
    (∀ line, debug_line_violations line =
      if debugSuppressed line then []
      else debugPatterns.filter (fun p => debugMatches p line)) ∧
    (∀ lines idx, resources_line_violations lines idx =
      if resSuppressed (lines.getD idx []) then []
      else if _is_legitimate_fallback lines idx then []
      else resPatterns.filter (fun p => resMatches p (lines.getD idx []))) ∧
    (∀ path line, check_anti_patterns_line path line =
      if antiPatternSuppressed path line then []
      else FORBIDDEN_PATTERNS.filter (fun p => forbiddenMatches p (codeTextOf line))) ∧
    (∀ line, findobjectoftype_line_violations line =
      if findSuppressed line then []
      else findPatterns.filter (fun p => findMatches p line)) := by
  refine ⟨?_, ?_, ?_, ?_⟩
  · intro line
    unfold debug_line_violations
    split_ifs with h
    · rfl
    · rw [foldl_if_append_eq_filter]
      simp
  · intro lines idx
    simp only [resources_line_violations]
    split_ifs with h1 h2
    · rfl
    · rfl
    · rw [foldl_if_append_eq_filter]
      simp
  · intro path line
    unfold check_anti_patterns_line
    split_ifs with h
    · rfl
    · rw [foldl_if_append_eq_filter]
      simp
  · intro line
    unfold findobjectoftype_line_violations
    split_ifs with h
    · rfl
    · rw [foldl_if_append_eq_filter]
      simp

/-- C2 counterexample: the line `UnityEngine.Debug.Log(msg);` matches two
patterns of the debug-log checker and is recorded twice, refuting "zero
or one violation per line, first matching pattern wins". -/
theorem checker_first_match_counterexample :
    debug_line_violations exDebugLine = [DebugPat.dLog, DebugPat.uLog] ∧
    (debug_line_violations exDebugLine).length = 2 := by
  decide

/-- C3 (amended): `_is_legitimate_fallback` returns true exactly when
some line with index in the half-open window
`[lineIdx - 5, min(len(lines), lineIdx + 5))` — five lines before through
four lines after the candidate, not five after — contains a fallback
indicator in its lowercased stripped text; whenever it returns true the
candidate line produces no violation in the resources checker. -/
theorem fallback_window_five_before_four_after (lines : List PyLine) (idx : Nat) :
    (_is_legitimate_fallback lines idx = true ↔
      ∃ i, idx - 5 ≤ i ∧ i < min lines.length (idx + 5) ∧ fallbackHit lines i = true) ∧
    (_is_legitimate_fallback lines idx = true → resources_line_violations lines idx = []) := by
  constructor
  · unfold _is_legitimate_fallback
    rw [List.any_eq_true]
    constructor
    · rintro ⟨i, hi, hh⟩
      have hm := List.mem_range'_1.mp hi
      exact ⟨i, hm.1, by omega, hh⟩
    · rintro ⟨i, h1, h2, hh⟩
      exact ⟨i, List.mem_range'_1.mpr ⟨h1, by omega⟩, hh⟩
  · intro h
    simp only [resources_line_violations]
    split_ifs <;> rfl

/-- C3 witness: a fallback marker directly above a Resources.Load call
suppresses the violation. -/
theorem fallback_window_five_before_four_after_witness :
    resources_line_violations exLinesC3w 1 = [] :=
  (fallback_window_five_before_four_after exLinesC3w 1).2 (by decide)

/-- C3 counterexample: a marker exactly 5 lines after the candidate lies
inside the spec's symmetric window but outside the code's
`range(idx - 5, idx + 5)` window, so the candidate's violation is not
suppressed. -/
theorem fallback_window_counterexample :
    fallback_window_per_spec exLinesC3 0 = true ∧
    fallbackHit exLinesC3 5 = true ∧
    _is_legitimate_fallback exLinesC3 0 = false ∧
    resources_line_violations exLinesC3 0 = [ResPat.loadGen] := by
  decide

/-- Boundary ratio 625/500: exactly one quarter over budget. -/
theorem excess_ratio_625_500 : excess_ratio 625 500 = 1 / 4 := by
  norm_num [excess_ratio]

/-- Boundary ratio 750/500: exactly one half over budget. -/
theorem excess_ratio_750_500 : excess_ratio 750 500 = 1 / 2 := by
  norm_num [excess_ratio]

/-- Boundary ratio 1000/500: exactly twice the budget. -/
theorem excess_ratio_1000_500 : excess_ratio 1000 500 = 1 := by
  norm_num [excess_ratio]

/-- The ratio of 510/500 is below the ratio of 1500/500. -/
theorem excess_ratio_510_le_1500 : excess_ratio 510 500 ≤ excess_ratio 1500 500 := by
  norm_num [excess_ratio]

/-- C7: `calculate_severity` is monotonically non-decreasing in the
excess ratio, and the boundary ratios map to the documented tier and not
the next lower one: ratio exactly 1/4 gives MEDIUM, exactly 1/2 gives
HIGH, exactly 1 gives CRITICAL. -/
theorem severity_monotone_and_boundaries :
    (∀ c1 b1 c2 b2 : Nat, 0 < b1 → 0 < b2 →
      excess_ratio c1 b1 ≤ excess_ratio c2 b2 →
      sevRank (calculate_severity c1 b1) ≤ sevRank (calculate_severity c2 b2)) ∧
    (∀ c b : Nat, 0 < b → excess_ratio c b = 1 / 4 →
      calculate_severity c b = Severity.medium) ∧
    (∀ c b : Nat, 0 < b → excess_ratio c b = 1 / 2 →
      calculate_severity c b = Severity.high) ∧
    (∀ c b : Nat, 0 < b → excess_ratio c b = 1 →
      calculate_severity c b = Severity.critical) := by
  refine ⟨?_, ?_, ?_, ?_⟩
  · intro c1 b1 c2 b2 _ _ hle
    unfold calculate_severity
    split_ifs <;> simp only [sevRank] <;> first | decide | linarith
  · intro c b _ hr
    unfold calculate_severity
    rw [hr]
    norm_num
  · intro c b _ hr
    unfold calculate_severity
    rw [hr]
    norm_num
  · intro c b _ hr
    unfold calculate_severity
    rw [hr]
    norm_num

/-- C7 witness: the monotonicity part at ratios 1/50 and 2, and the three
boundary cases at budget 500. -/
theorem severity_monotone_and_boundaries_witness :
    sevRank (calculate_severity 510 500) ≤ sevRank (calculate_severity 1500 500) ∧
    calculate_severity 625 500 = Severity.medium ∧
    calculate_severity 750 500 = Severity.high ∧
    calculate_severity 1000 500 = Severity.critical :=
  ⟨severity_monotone_and_boundaries.1 510 500 1500 500 (by decide) (by decide)
      excess_ratio_510_le_1500,
   severity_monotone_and_boundaries.2.1 625 500 (by decide) excess_ratio_625_500,
   severity_monotone_and_boundaries.2.2.1 750 500 (by decide) excess_ratio_750_500,
   severity_monotone_and_boundaries.2.2.2 1000 500 (by decide) excess_ratio_1000_500⟩

/-- C8 (amended): in check_anti_patterns of run_quality_gates.py only the
re-stripped code text before an inline `//` is pattern-tested, so a
banned token occurring only in the comment portion is never reported by
that checker; the resources-load and findobjectoftype checkers, by
contrast, test the whole raw line (see the counterexample). -/
theorem comment_portion_never_matched_in_anti_patterns (path line : List Char)
    (h : ∀ p ∈ FORBIDDEN_PATTERNS, forbiddenMatches p (codeTextOf line) = false) :
    check_anti_patterns_line path line = [] := by
  unfold check_anti_patterns_line
  split_ifs with hs
  · rfl
  · rw [foldl_if_append_eq_filter, List.nil_append, List.filter_eq_nil_iff]
    intro p hp
    simp [h p hp]

/-- C8 witness: a line whose only banned token sits after the inline
comment marker yields no anti-pattern violation. -/
theorem comment_portion_never_matched_witness :
    check_anti_patterns_line exPathC8w exLineC8w = [] :=
  comment_portion_never_matched_in_anti_patterns exPathC8w exLineC8w (by decide)

/-- C8 counterexample: lines whose only banned token sits in the
trailing comment portion are still reported by the resources-load and
findobjectoftype checkers — their code portions hold no banned token,
yet both checkers match the raw line including the comment. -/
theorem comment_portion_reported_counterexample :
    isSubstr "Resources.Load".toList (codeTextOf (exLinesC8.getD 0 [])) = false ∧
    resources_line_violations exLinesC8 0 = [ResPat.loadGen] ∧
    isSubstr "FindObjectOfType".toList (codeTextOf exLineC8f) = false ∧
    findobjectoftype_line_violations exLineC8f = [FindPat.plain] := by
  decide

/-- A 1001-line file against budget 500 is graded CRITICAL. -/
theorem severity_of_1001_500 : calculate_severity 1001 500 = Severity.critical := by
  norm_num [calculate_severity, excess_ratio]

/-- A 501-line file against budget 500 is graded LOW. -/
theorem severity_of_501_500 : calculate_severity 501 500 = Severity.low := by
  norm_num [calculate_severity, excess_ratio]

/-- C9: any CRITICAL severity finding forces the size-governance exit
status to 1 regardless of the total violation count; with no CRITICAL
finding and a total at or below the 110-violation ceiling the exit status
is 0. -/
theorem critical_forces_nonzero_exit :
    (∀ (vs : List SizeViolation) (v : SizeViolation), v ∈ vs →
      v.severity = Severity.critical → size_gate_exit vs = 1) ∧
    (∀ vs : List SizeViolation, (∀ v ∈ vs, v.severity ≠ Severity.critical) →
      vs.length ≤ 110 → size_gate_exit vs = 0) := by
  constructor
  · intro vs v hv hcrit
    have hmem : v ∈ vs.filter (fun w => w.severity == Severity.critical) :=
      List.mem_filter.mpr ⟨hv, by simp [hcrit]⟩
    have hpos : 0 < countCritical vs := by
      unfold countCritical
      exact List.length_pos_of_mem hmem
    unfold size_gate_exit
    rw [if_pos hpos]
  · intro vs hall h110
    have hfil : vs.filter (fun w => w.severity == Severity.critical) = [] :=
      List.filter_eq_nil_iff.mpr (fun v hv => by simp [hall v hv])
    unfold size_gate_exit countCritical
    rw [hfil]
    simp

/-- C9 witness: a single CRITICAL violation blocks; a single LOW one does
not. -/
theorem critical_forces_nonzero_exit_witness :
    size_gate_exit [exCritViolation] = 1 ∧ size_gate_exit [exLowViolation] = 0 :=
  ⟨critical_forces_nonzero_exit.1 [exCritViolation] exCritViolation
      (by simp)
      (by simp [exCritViolation, severity_of_1001_500]),
   critical_forces_nonzero_exit.2 [exLowViolation]
      (by simp [exLowViolation, severity_of_501_500])
      (by simp)⟩

/-- C10: the indicator `'if (assetManager == null)'` contains an
uppercase character, while every context line is lowercased before the
substring test, so it never matches: `_is_legitimate_fallback` computes
the same function as the variant with that indicator removed from the
list. -/
theorem mixed_case_indicator_is_dead (lines : List PyLine) (idx : Nat) :
    _is_legitimate_fallback lines idx = fallback_pruned lines idx := by
  unfold _is_legitimate_fallback fallback_pruned
  apply any_eq_of_pointwise
  intro i _
  unfold fallbackHit fallbackHitPruned fallbackIndicators fallbackIndicatorsPruned
  simp only [List.any_cons, List.any_nil]
  rw [isSubstr_mixed_indicator_lower (pyStrip ((lines.getD i [])))]
  simp
